import Mathlib

/-!
Verification development for the nitter-status scanner.

The definitions below are a shallow embedding of the scanner crate
(src/scanner/src) of the nitter-status repository.  Database access is
modelled by passing query results as explicit arguments, machine integers
are modelled as Int or Nat, f64 arithmetic is modelled as exact rational
arithmetic, and fallible operations return Option or Except.  Each
definition names the Rust item it embeds in its doc comment.
-/

/-! ### Common helpers -/

/-- Model of Ord::cmp for Rust integers. -/
def cmpInt (a b : Int) : Ordering :=
  if a < b then Ordering.lt else if b < a then Ordering.gt else Ordering.eq

/-- Model of Ord::cmp for Rust bool: false is less than true. -/
def cmpBool (a b : Bool) : Ordering :=
  match a, b with
  | false, true => Ordering.lt
  | true, false => Ordering.gt
  | _, _ => Ordering.eq

/-- Rust i32/i64 division truncates toward zero, matching Int.tdiv. -/
def rustDiv (a b : Int) : Int := Int.tdiv a b

/-! ### C1: cache/ranking builder (src/scanner/src/cache_update.rs) -/

/-- Fields of entities CacheHost that take part in the ranking comparator
of generate_cache_data (cache_update.rs lines 164-186).  Timestamps are
unix seconds. -/
structure CacheHost where
  points : Int
  healthy_percentage_overall : Int
  __show_last_seen : Bool
  last_healthy : Option Int
deriving DecidableEq

/-- The comparator closure passed to sort_unstable_by in
generate_cache_data (cache_update.rs lines 164-185), translated branch by
branch.  Note that it inspects only the points of its FIRST argument: for
a pair (a, b) with a.points = 0 and b.points > 0 the else branch runs and
the points are ignored, so the comparator is not a total order. -/
def cmpCacheHost (a b : CacheHost) : Ordering :=
  if a.points > 0 then
    match cmpInt a.points b.points with
    | Ordering.eq => cmpInt a.healthy_percentage_overall b.healthy_percentage_overall
    | v => v
  else
    let cmp_v := cmpBool b.__show_last_seen a.__show_last_seen
    if cmp_v ≠ Ordering.eq then cmp_v
    else
      match a.last_healthy, b.last_healthy with
      | some x, some y => cmpInt x y
      | some _, none => Ordering.gt
      | none, some _ => Ordering.lt
      | none, none => Ordering.eq

/-- One insertion step of insertion sort, operating on the REVERSED sorted
prefix (head of the accumulator is the rightmost element of the prefix):
the new element a moves left past each element p with isLess a p, exactly
like the element shifting of the insertion sort that Rust
sort_unstable_by performs on small slices. -/
def insertRustShift (isLess : α → α → Bool) (a : α) : List α → List α
  | [] => [a]
  | p :: rest => if isLess a p then p :: insertRustShift isLess a rest else a :: p :: rest

/-- Insertion sort of a slice, returning the REVERSE of the ascending
order.  Rust sort_unstable_by performs insertion sort on slices below its
small-sort threshold (in particular on two-element slices exactly one
comparison is_less of the second against the first element happens).
generate_cache_data sorts ascending and then calls Vec::reverse, so the
published ranking (best host first) is exactly this reversed order. -/
def rustInsertionSortRev (isLess : α → α → Bool) (l : List α) : List α :=
  l.foldl (fun acc x => insertRustShift isLess x acc) []

/-- The ranking step of generate_cache_data: host_statistics is sorted
with cmpCacheHost via sort_unstable_by and then reversed; the input list
is in ascending host id order (query_hosts_enabled orders by id). -/
def rankHosts (hosts : List CacheHost) : List CacheHost :=
  rustInsertionSortRev (fun a b => cmpCacheHost a b == Ordering.lt) hosts

/-- A host with positive points, recently seen.  Reachable: a fully
healthy host whose latest healthy check is at time 500. -/
def c1HostGood : CacheHost :=
  { points := 70
    healthy_percentage_overall := 90
    __show_last_seen := false
    last_healthy := some 500 }

/-- A host with zero published points but a healthy check at time 600,
more recent than c1HostGood.  Reachable: with one healthy check out of
many in the 3h window the f64 score rounds below 1 and the i32 cast
yields 0, while the host was still seen healthy minutes ago, so
__show_last_seen is false. -/
def c1HostZero : CacheHost :=
  { points := 0
    healthy_percentage_overall := 10
    __show_last_seen := false
    last_healthy := some 600 }

/-- C1: the claim states that every host with points > 0 is ranked
strictly above every host with points = 0.  Counter-evaluation: with
c1HostGood (points 70) having the smaller host id (earlier in the input
list) and c1HostZero (points 0) having the fresher last_healthy, the
comparator compares the pair through its else branch, the single
insertion-sort comparison does not swap them, and after the final reverse
the zero-point host is published ABOVE the 70-point host.  The comparator
violates the total-order contract of sort_unstable_by, so the invariant
claimed by the spec is not enforced by the code. -/
theorem c1_zero_point_host_ranked_above_positive :
    rankHosts [c1HostGood, c1HostZero] = [c1HostZero, c1HostGood]
    ∧ c1HostZero.points = 0 ∧ 0 < c1HostGood.points := by decide

/-! ### C2: version-check generational cache (src/scanner/src/version_check.rs) -/

/-- Classification of a commit, entities state CommitInfo. -/
inductive CommitInfo where
  | Outdated
  | Current
  | CustomBranch
  | UnknownCommit
  | Missing
deriving DecidableEq

/-- Cache entry of the version checker (version_check.rs CommitCacheValue);
epoch is a u8 value, kept in the range 0..256. -/
structure CommitCacheValue where
  result : CommitInfo
  epoch : Nat
deriving DecidableEq

/-- The mutable state of VersionCheck that the cache operations touch:
the per-sha commit cache (a HashMap modelled as an association list) and
the u8 generation counter. -/
structure VersionCheckState where
  commit_cache : List (String × CommitCacheValue)
  current_epoch : Nat
deriving DecidableEq

/-- Model of u8::wrapping_add for operands below 256. -/
def u8wrapAdd (a b : Nat) : Nat := (a + b) % 256

/-- Model of u8::wrapping_sub for operands below 256. -/
def u8wrapSub (a b : Nat) : Nat := (a + 256 - b % 256) % 256

/-- VersionCheck::cycle_epoch (version_check.rs lines 42-47): increments
the epoch, then calls HashMap::retain with the predicate
current_epoch.wrapping_sub(entry.epoch) > 1.  retain KEEPS the entries
satisfying the predicate, i.e. this keeps entries at least two
generations old and removes the fresh ones. -/
def cycleEpoch (s : VersionCheckState) : VersionCheckState :=
  let e := u8wrapAdd s.current_epoch 1
  { current_epoch := e
    commit_cache := s.commit_cache.filter (fun kv => decide (1 < u8wrapSub e kv.2.epoch)) }

/-- Lookup in the commit cache association list. -/
def cacheFind (m : List (String × CommitCacheValue)) (k : String) : Option CommitCacheValue :=
  match m with
  | [] => none
  | (k2, v) :: t => if k2 = k then some v else cacheFind t k

/-- Insert into the commit cache, replacing an existing binding
(HashMap::insert semantics). -/
def cacheInsert (m : List (String × CommitCacheValue)) (k : String) (v : CommitCacheValue) :
    List (String × CommitCacheValue) :=
  match m with
  | [] => [(k, v)]
  | (k2, v2) :: t => if k2 = k then (k, v) :: t else (k2, v2) :: cacheInsert t k v

/-- VersionCheck::check_commit (version_check.rs lines 92-109).  The git
walk check_commit_inner is abstracted as the oracle `inner`.  Returns the
classification, whether it was served from the cache (the hit branch with
freshness wrapping_sub(current, epoch) <= 1), and the new state. -/
def checkCommit (inner : String → CommitInfo) (s : VersionCheckState) (sha : String) :
    CommitInfo × Bool × VersionCheckState :=
  match cacheFind s.commit_cache sha with
  | some v =>
    if u8wrapSub s.current_epoch v.epoch ≤ 1 then
      (v.result, true,
        { s with commit_cache := cacheInsert s.commit_cache sha { v with epoch := s.current_epoch } })
    else
      let r := inner sha
      (r, false,
        { s with commit_cache := cacheInsert s.commit_cache sha { result := r, epoch := s.current_epoch } })
  | none =>
      let r := inner sha
      (r, false,
        { s with commit_cache := cacheInsert s.commit_cache sha { result := r, epoch := s.current_epoch } })

/-- Engine state after classifying sha "a1b2c3d" as Outdated at epoch 0. -/
def c2StateCached : VersionCheckState :=
  (checkCommit (fun _ => CommitInfo.Outdated) { commit_cache := [], current_epoch := 0 } "a1b2c3d").2.2

/-- Engine state after one generation cycle (one update_remote). -/
def c2StateCycled : VersionCheckState := cycleEpoch c2StateCached

/-- C2: the claim states that an entry cached at generation g is still
served from the cache (and promoted) at generation g+1 and only evicted
at g+2.  Counter-evaluation: the retain predicate of cycle_epoch is
inverted (it keeps entries with age > 1 instead of age <= 1), so the
entry cached at epoch 0 is already evicted by the first cycle: at epoch 1
the cache is empty and a read recomputes via the git walk (the second
oracle returns Current, proving the cached Outdated value is not
served). -/
theorem c2_fresh_cache_entry_evicted_after_one_generation :
    c2StateCached.commit_cache = [("a1b2c3d", { result := CommitInfo.Outdated, epoch := 0 })]
    ∧ c2StateCycled.current_epoch = 1
    ∧ c2StateCycled.commit_cache = []
    ∧ (checkCommit (fun _ => CommitInfo.Current) c2StateCycled "a1b2c3d").1 = CommitInfo.Current
    ∧ (checkCommit (fun _ => CommitInfo.Current) c2StateCycled "a1b2c3d").2.1 = false := by
  decide

/-! ### C3 and C4: alert evaluator (src/scanner/src/alerts.rs) -/

/-- Entity instance_alerts::Model (entities/src/instance_alerts.rs): one
row per host with four (threshold, enable) pairs. -/
structure InstanceAlertsModel where
  host : Int
  host_down_amount : Option Int
  host_down_amount_enable : Bool
  alive_accs_min_threshold : Option Int
  alive_accs_min_threshold_enable : Bool
  alive_accs_min_percent : Option Int
  alive_accs_min_percent_enable : Bool
  avg_account_age_days : Option Int
  avg_account_age_days_enable : Bool
deriving DecidableEq

/-- Entity instance_stats::Model (entities/src/instance_stats.rs). -/
structure InstanceStatsModel where
  time : Int
  host : Int
  limited_accs : Int
  total_accs : Int
  total_requests : Int
  req_photo_rail : Int
  req_user_screen_name : Int
  req_search : Int
  req_list_tweets : Int
  req_user_media : Int
  req_tweet_detail : Int
  req_list : Int
  req_user_tweets : Int
  req_user_tweets_and_replies : Int
deriving DecidableEq

/-- Entity health_check::Model: one row per probe attempt. -/
structure HealthCheckModel where
  time : Int
  host : Int
  resp_time : Option Int
  healthy : Bool
  response_code : Option Int
deriving DecidableEq

/-- Fields of entity host::Model used by the alert evaluator and the
health sweep (unix-second timestamps). -/
structure HostModel where
  id : Int
  url : String
  account_age_average : Option Int
deriving DecidableEq

/-- Scanner::check_alert_host_unhealthy (alerts.rs lines 184-209):
lastChecks is the result of the latest-3 descending health query; the
count of unhealthy rows is compared against the threshold.  The Rust
`as usize` cast of the i32 threshold is modelled with Int.toNat (negative
thresholds are rejected by the admin form validation and not modelled). -/
def checkAlertHostUnhealthy (cfg : InstanceAlertsModel) (lastChecks : List HealthCheckModel) :
    Option String :=
  match cfg.host_down_amount, cfg.host_down_amount_enable with
  | some alert_threshold, true =>
    let amount := (lastChecks.filter (fun v => !v.healthy)).length
    if amount ≥ alert_threshold.toNat then
      some s!"{amount} health checks failed in succession. Threshold at {alert_threshold} unlimited accounts."
    else
      none
  | _, _ => none

/-- Scanner::check_alert_account_age_avg (alerts.rs lines 100-128): the
absolute difference between now and the account age average is compared
against the threshold in days (chrono Duration::days, 86400 seconds).
The chrono Display formatting of the timestamp inside the message is
modelled by the raw unix-second value. -/
def checkAlertAccountAgeAvg (cfg : InstanceAlertsModel) (host : HostModel) (now : Int) :
    Option String :=
  match cfg.avg_account_age_days, cfg.avg_account_age_days_enable with
  | some alert_threshold, true =>
    match host.account_age_average with
    | some account_avg_age =>
      if |now - account_avg_age| ≥ alert_threshold * 86400 then
        some s!"Average account age reached {account_avg_age}! Alert threshold at {alert_threshold} days."
      else
        none
    | none => none
  | _, _ => none

/-- Scanner::check_alert_min_alive_accounts (alerts.rs lines 131-154). -/
def checkAlertMinAliveAccounts (cfg : InstanceAlertsModel) (stats : InstanceStatsModel) :
    Option String :=
  match cfg.alive_accs_min_threshold, cfg.alive_accs_min_threshold_enable with
  | some alert_threshold, true =>
    let unlimited_accs := stats.total_accs - stats.limited_accs
    if stats.total_accs - stats.limited_accs < alert_threshold then
      some s!"Usable accounts at {unlimited_accs} from {stats.total_accs} total. Threshold at {alert_threshold} unlimited accounts."
    else
      none
  | _, _ => none

/-- Scanner::check_alert_min_alive_percent (alerts.rs lines 157-180).
The source computes stats.limited_accs * 100 / stats.total_accs with
plain i32 division and no guard; Rust integer division by zero panics,
modelled here as Except.error. -/
def checkAlertMinAlivePercent (cfg : InstanceAlertsModel) (stats : InstanceStatsModel) :
    Except Unit (Option String) :=
  match cfg.alive_accs_min_percent, cfg.alive_accs_min_percent_enable with
  | some alert_threshold, true =>
    if stats.total_accs = 0 then
      Except.error ()
    else
      let remaining := rustDiv (stats.limited_accs * 100) stats.total_accs
      if remaining < alert_threshold then
        Except.ok (some s!"Usable accounts at {remaining}%. Threshold at {alert_threshold} unlimited accounts.")
      else
        Except.ok none
  | _, _ => Except.ok none

/-- The mail-body assembly of Scanner::check_for_alerts for one host with
a mail binding and an alert config (alerts.rs lines 40-64): the unhealthy
rule, then the account-age rule, then - only when stats at the newest
global stats timestamp exist - check_alert_min_alive_accounts is invoked
TWICE; check_alert_min_alive_percent is never invoked.  Every produced
message is appended followed by a newline. -/
def alertMailBody (cfg : InstanceAlertsModel) (lastChecks : List HealthCheckModel)
    (host : HostModel) (now : Int) (stats : Option InstanceStatsModel) : String :=
  let mail := ""
  let mail := match checkAlertHostUnhealthy cfg lastChecks with
    | some m => mail ++ m ++ "\n"
    | none => mail
  let mail := match checkAlertAccountAgeAvg cfg host now with
    | some m => mail ++ m ++ "\n"
    | none => mail
  match stats with
  | some host_stats =>
    let mail := match checkAlertMinAliveAccounts cfg host_stats with
      | some m => mail ++ m ++ "\n"
      | none => mail
    let mail := match checkAlertMinAliveAccounts cfg host_stats with
      | some m => mail ++ m ++ "\n"
      | none => mail
    mail
  | none => mail

/-- Alert config with only the min-alive-percent rule enabled, at 50
percent. -/
def c3AlertConfig : InstanceAlertsModel :=
  { host := 1
    host_down_amount := none
    host_down_amount_enable := false
    alive_accs_min_threshold := none
    alive_accs_min_threshold_enable := false
    alive_accs_min_percent := some 50
    alive_accs_min_percent_enable := true
    avg_account_age_days := none
    avg_account_age_days_enable := false }

/-- Stats row with 0 of 10 accounts limited: 0 percent, far below the 50
percent alert threshold. -/
def c3Stats : InstanceStatsModel :=
  { time := 1000, host := 1, limited_accs := 0, total_accs := 10, total_requests := 7
    req_photo_rail := 0, req_user_screen_name := 0, req_search := 0, req_list_tweets := 0
    req_user_media := 0, req_tweet_detail := 0, req_list := 0, req_user_tweets := 0
    req_user_tweets_and_replies := 0 }

/-- C3: the claim states that the alert pass includes the percent-rule
message exactly when limited * 100 / total < alive_accs_min_percent.
Counter-evaluation: with the percent rule enabled and its condition true
(0 < 50) the assembled mail body is empty, because check_for_alerts calls
check_alert_min_alive_accounts twice and never calls
check_alert_min_alive_percent (the rule is dead code). -/
theorem c3_percent_rule_message_never_in_mail_body :
    alertMailBody c3AlertConfig [] { id := 1, url := "https://a.example", account_age_average := none } 0 (some c3Stats) = ""
    ∧ checkAlertMinAlivePercent c3AlertConfig c3Stats =
        Except.ok (some "Usable accounts at 0%. Threshold at 50 unlimited accounts.") :=
  ⟨rfl, rfl⟩

/-- Stats row reporting zero total accounts. -/
def c4Stats : InstanceStatsModel :=
  { time := 1000, host := 1, limited_accs := 0, total_accs := 0, total_requests := 0
    req_photo_rail := 0, req_user_screen_name := 0, req_search := 0, req_list_tweets := 0
    req_user_media := 0, req_tweet_detail := 0, req_list := 0, req_user_tweets := 0
    req_user_tweets_and_replies := 0 }

/-- C4: the claim states that the zero-total case cannot reach the
division of the min-alive-percent rule.  Counter-evaluation: with the
rule enabled and total_accs = 0 the source divides
limited_accs * 100 / total_accs without any guard, a division by zero
(modelled as Except.error, a Rust panic). -/
theorem c4_percent_rule_divides_by_zero_on_zero_total :
    checkAlertMinAlivePercent
      { host := 1
        host_down_amount := none
        host_down_amount_enable := false
        alive_accs_min_threshold := none
        alive_accs_min_threshold_enable := false
        alive_accs_min_percent := some 10
        alive_accs_min_percent_enable := true
        avg_account_age_days := none
        avg_account_age_days_enable := false }
      c4Stats = Except.error () := rfl

/-! ### C5: host points formula (src/scanner/src/cache_update.rs lines 102-124) -/

/-- Rust `as i32` cast of a finite nonnegative f64: truncation toward
zero, modelled on exact rationals. -/
def ratTrunc (q : ℚ) : ℤ := if 0 ≤ q then ⌊q⌋ else -⌊-q⌋

/-- Rounding to the nearest integer (round half up), the reading of
"round" used by the specification formula. -/
def ratRound (q : ℚ) : ℤ := ⌊q + 1/2⌋

/-- One row of the windowed health statistics query query_stats_range:
good is the count of healthy checks, total the count of all checks, in
the window (total is at least 1 for a row that exists). -/
structure WindowStats where
  good : Nat
  total : Nat
deriving DecidableEq

/-- The map_or(0.0, stats.good / stats.total) pattern of
generate_cache_data: the windowed healthy ratio, 0.0 when the host has
no row for the window. -/
def ratioOf (s : Option WindowStats) : ℚ :=
  match s with
  | none => 0
  | some st => (st.good : ℚ) / (st.total : ℚ)

/-- The score computation of generate_cache_data (cache_update.rs lines
102-121) on exact rationals: versionPoints is the looked-up
version-popularity value (none when the host has no version or the
version is not in the map, matching map_or(0.0, ..) and unwrap_or(0.0)). -/
def hostPointsQ (s3 s30 s120 : Option WindowStats) (versionPoints : Option ℚ) : ℚ :=
  let stats_3h_host := ratioOf s3
  let points_3h := (3 / 10 : ℚ) * stats_3h_host
  let points_30d := (2 / 10 : ℚ) * ratioOf s30
  let points_120d := (2 / 10 : ℚ) * ratioOf s120
  let points_version := (1 / 10 : ℚ) * versionPoints.getD 0
  stats_3h_host * (points_30d + points_120d + points_version + points_3h)

/-- The published points value: (points * 100.0) as i32
(cache_update.rs line 124), an f64 to i32 cast, which truncates. -/
def hostPoints (s3 s30 s120 : Option WindowStats) (versionPoints : Option ℚ) : ℤ :=
  ratTrunc (hostPointsQ s3 s30 s120 versionPoints * 100)

/-- The formula claimed by the specification: S = round(100 r3h S0) with
S0 = 0.3 r3h + 0.2 r30d + 0.2 r120d + 0.1 pv. -/
def specHostPoints (r3 r30 r120 pv : ℚ) : ℤ :=
  ratRound (100 * r3 * ((3/10) * r3 + (2/10) * r30 + (2/10) * r120 + (1/10) * pv))

/-- C5 counterexample: a host with 1 healthy check out of 2 in the 3h
window and nothing else scores 100 * (1/2) * (0.3 * (1/2)) = 7.5; the
code truncates to 7 while the claimed round gives 8. -/
theorem c5_points_truncated_not_rounded :
    hostPoints (some { good := 1, total := 2 }) none none none = 7
    ∧ specHostPoints (ratioOf (some { good := 1, total := 2 })) 0 0 0 = 8 := by
  have hr : ratioOf (some { good := 1, total := 2 }) = 1/2 := by
    unfold ratioOf
    norm_num
  have harg : hostPointsQ (some { good := 1, total := 2 }) none none none * 100 = 15/2 := by
    unfold hostPointsQ
    rw [hr]
    norm_num [ratioOf]
  have h7 : ratTrunc (15/2 : ℚ) = 7 := by
    unfold ratTrunc
    rw [if_pos (by norm_num)]
    rw [Int.floor_eq_iff]
    norm_num
  have h8 : ratRound (100 * (1/2 : ℚ) * ((3/10) * (1/2) + (2/10) * 0 + (2/10) * 0 + (1/10) * 0)) = 8 := by
    unfold ratRound
    have harg2 : (100 * (1/2 : ℚ) * ((3/10) * (1/2) + (2/10) * 0 + (2/10) * 0 + (1/10) * 0)) + 1/2 = 8 := by
      norm_num
    rw [harg2]
    rw [Int.floor_eq_iff]
    norm_num
  constructor
  · unfold hostPoints
    rw [harg]
    exact h7
  · unfold specHostPoints
    rw [hr]
    exact h8

/-- C5 amended: the published points equal the TRUNCATION toward zero of
100 * r3h * S0 (not the rounding).  The f64 arithmetic is modelled as
exact rational arithmetic; rows returned by the SQL aggregation always
have total >= 1, and absent rows contribute ratio 0 through ratioOf. -/
theorem c5_points_eq_trunc_of_spec_product (s3 s30 s120 : Option WindowStats) (pv : Option ℚ) :
    hostPoints s3 s30 s120 pv =
      ratTrunc (100 * ratioOf s3 *
        ((3/10) * ratioOf s3 + (2/10) * ratioOf s30 + (2/10) * ratioOf s120
          + (1/10) * pv.getD 0)) := by
  unfold hostPoints hostPointsQ
  congr 1
  ring

/-! ### C6: ping rollup (src/scanner/src/cache_update.rs query_pings, lines 217-286) -/

/-- One row of the ping query: ping is resp_time when the check was
healthy, null otherwise; rows are ordered by (host, time) ascending. -/
structure PingEntry where
  host : Int
  ping : Option Int
deriving DecidableEq

/-- Accumulated per-host ping data (cache_update.rs LastPings). -/
structure LastPings where
  avg : Option Int
  min : Option Int
  max : Option Int
  pings : List (Option Int)
deriving DecidableEq

/-- Finalize a group: the avg field holds the running sum and is divided
by the non-null counter (the if-let Some(sum) blocks of query_pings). -/
def finalizePings (cur : LastPings) (non_null_entries : Int) : LastPings :=
  match cur.avg with
  | some sum => { cur with avg := some (rustDiv sum non_null_entries) }
  | none => cur

/-- The loop body of query_pings (cache_update.rs lines 258-279).  State:
the result map (insertion order), the current entry, the current host and
the non-null counter. -/
def pingsStep (st : List (Int × LastPings) × LastPings × Int × Int) (p : PingEntry) :
    List (Int × LastPings) × LastPings × Int × Int :=
  let (map, cur, last_host, nne) := st
  let (map, cur, last_host, nne) :=
    if last_host ≠ p.host then
      (map ++ [(last_host, finalizePings cur nne)],
       ({ avg := none, min := none, max := none, pings := [] } : LastPings), p.host, 0)
    else
      (map, cur, last_host, nne)
  match p.ping with
  | some v =>
      (map,
       { avg := some (cur.avg.getD 0 + v)
         min := some (match cur.min with | some m => Min.min m v | none => v)
         max := some (match cur.max with | some m => Max.max m v | none => v)
         pings := cur.pings ++ [p.ping] },
       last_host, nne + 1)
  | none =>
      (map, { cur with pings := cur.pings ++ [p.ping] }, last_host, nne)

/-- Scanner::query_pings on the already-fetched ordered row list
(cache_update.rs lines 240-285), translated statement by statement.  Note
the handling of the FIRST row: non_null_entries starts at 1 for a
non-null first ping and is incremented AGAIN inside the following if-let,
so the first group divides by one more than its non-null count. -/
def queryPingsFold (l : List PingEntry) : List (Int × LastPings) :=
  match l with
  | [] => []
  | first :: rest =>
    let nne0 : Int := match first.ping with | some _ => 1 | none => 0
    let (cur0, nne1) :=
      match first.ping with
      | some p =>
        (({ avg := some p, min := some p, max := some p, pings := [] } : LastPings), nne0 + 1)
      | none => (({ avg := none, min := none, max := none, pings := [] } : LastPings), nne0)
    let cur0 := { cur0 with pings := cur0.pings ++ [first.ping] }
    let (map, cur, last_host, nne) := rest.foldl pingsStep ([], cur0, first.host, nne1)
    map ++ [(last_host, finalizePings cur nne)]

/-- The integer mean over non-null pings required by the specification
(division truncating toward zero, null when there is no non-null ping). -/
def integerMeanNonNull (pings : List (Option Int)) : Option Int :=
  let vs := pings.filterMap id
  if vs.length = 0 then none
  else some (rustDiv (vs.foldl (· + ·) 0) (vs.length : Int))

/-- C6: the claim states ping_avg is the integer mean over the non-null
pings of the host, including for the first host group of the single
ordered pass.  Counter-evaluation: for a first (and only) group with the
single non-null ping 100, the code divides the sum 100 by the counter 2
(the first non-null row is counted twice) and publishes avg = 50, while
the integer mean is 100. -/
theorem c6_first_group_ping_avg_double_counts :
    queryPingsFold [{ host := 1, ping := some 100 }] =
      [(1, { avg := some 50, min := some 100, max := some 100, pings := [some 100] })]
    ∧ integerMeanNonNull [some 100] = some 100 := by
  decide

/-! ### C7 and C10: HTTP fetch classification and the health-check worker
(src/scanner/src/lib.rs fetch_url and FetchError,
src/scanner/src/instance_check.rs health_check_host and
insert_failed_health_check, entities/src/state/error_cache.rs HostError) -/

/-- Model of str::contains on character lists. -/
def charsContain (needle : List Char) : List Char → Bool
  | [] => needle.isEmpty
  | c :: t => needle.isPrefixOf (c :: t) || charsContain needle t

/-- Model of str::contains. -/
def strContains (s pat : String) : Bool := charsContain pat.toList s.toList

/-- The CAPTCHA_TEXT constant of lib.rs. -/
def captchaText : String := "Enable JavaScript and cookies to continue"

/-- The FetchError enum of lib.rs (the reqwest transport error is carried
as its display string). -/
inductive FetchErr where
  | Reqwest (msg : String)
  | HttpResponseStatus (code : Nat) (codeMsg : String) (body : String)
  | KnownHttpResponseStatus (code : Nat) (codeMsg : String) (body : String)
  | RetrievingBody (url : String) (msg : String)
  | Captcha
deriving DecidableEq

/-- The response-classification cascade of Scanner::fetch_url (lib.rs
lines 397-450) on an already-received response: code is the HTTP status,
codeMsg its canonical reason and body the response body text.  2xx is
success; otherwise the checks run in source order, captcha first. -/
def fetchClassify (code : Nat) (codeMsg : String) (body : String) :
    Except FetchErr (Nat × String) :=
  if 200 ≤ code ∧ code < 300 then
    Except.ok (code, body)
  else if code = 403 ∧ strContains body captchaText = true then
    Except.error FetchErr.Captcha
  else if code = 403 ∧ strContains body "You have been blocked" = true then
    Except.error (FetchErr.KnownHttpResponseStatus code codeMsg body)
  else if code = 429 ∧ strContains body "Instance has been rate limited" = true then
    Except.error (FetchErr.KnownHttpResponseStatus code codeMsg body)
  else if code = 404 then
    Except.error (FetchErr.KnownHttpResponseStatus code codeMsg body)
  else if 502 ≤ code ∧ code ≤ 504 then
    Except.error (FetchErr.KnownHttpResponseStatus code codeMsg body)
  else if 520 ≤ code ∧ code ≤ 527 then
    Except.error (FetchErr.KnownHttpResponseStatus code codeMsg body)
  else
    Except.error (FetchErr.HttpResponseStatus code codeMsg body)

/-- HostError (entities/src/state/error_cache.rs); time is the creation
instant (Utc::now in the constructors). -/
structure HostErrorM where
  time : Int
  message : String
  http_body : Option String
  http_status : Option Int
deriving DecidableEq

/-- HostError::new. -/
def hostErrorNew (time : Int) (message : String) (http_body : String) (http_status : Nat) :
    HostErrorM :=
  { time := time, message := message, http_body := some http_body
    http_status := some (http_status : Int) }

/-- HostError::new_message: body and status are None. -/
def hostErrorNewMessage (time : Int) (message : String) : HostErrorM :=
  { time := time, message := message, http_body := none, http_status := none }

/-- FetchError::to_host_error (lib.rs lines 102-117); now is the Utc::now
instant at which the HostError is constructed. -/
def toHostError (e : FetchErr) (now : Int) : HostErrorM :=
  match e with
  | FetchErr.Reqwest msg => hostErrorNewMessage now msg
  | FetchErr.HttpResponseStatus http_status _ http_body =>
      hostErrorNew now "failed to fetch" http_body http_status
  | FetchErr.KnownHttpResponseStatus http_status code_msg body =>
      hostErrorNew now ("Known bad response on status " ++ code_msg) body http_status
  | FetchErr.RetrievingBody _ msg => hostErrorNewMessage now msg
  | FetchErr.Captcha => hostErrorNewMessage now "Captcha detected"

/-- Entity check_errors::Model. -/
structure CheckErrorModel where
  time : Int
  host : Int
  message : String
  http_body : Option String
  http_status : Option Int
deriving DecidableEq

/-- A row written to the database by the health sweep. -/
inductive DbWrite where
  | healthCheck (row : HealthCheckModel)
  | checkError (row : CheckErrorModel)
deriving DecidableEq

/-- Scanner::insert_failed_health_check (instance_check.rs lines
211-242): one HealthCheck row with healthy = false and response_code
from the host error, and one CheckError row carrying message, body and
status of the host error. -/
def insertFailedHealthCheck (host : Int) (time : Int) (host_error : HostErrorM)
    (resp_time : Option Int) : List DbWrite :=
  [ DbWrite.healthCheck
      { time := time, host := host, resp_time := resp_time, healthy := false
        response_code := host_error.http_status },
    DbWrite.checkError
      { time := host_error.time, host := host, message := host_error.message
        http_body := host_error.http_body, http_status := host_error.http_status } ]

/-- The profile data extracted by ProfileParser::parse_profile_content
(profile_parser.rs ProfileParsed). -/
structure ProfileParsed where
  post_count : Nat
  name : String
deriving DecidableEq

/-- The config fields of ScannerConfig read by health_check_host. -/
structure ProfileConfig where
  profile_name : String
  profile_posts_min : Nat
deriving DecidableEq

/-- Scanner::health_check_host (instance_check.rs lines 57-159) as a
function from the outcomes of its effects to the database rows it writes
and the log lines it emits.  urlValid models whether Url::parse of the
host url succeeded, fetchRes the result of fetch_url on the profile URL,
parseProfile the profile parser (its error carried as display string),
took_ms the measured elapsed milliseconds.  The muted flag guards every
tracing call (modelled in the second component); the log strings are
abbreviations of the tracing messages. -/
def healthCheckHost (cfg : ProfileConfig) (host : HostModel) (muted : Bool) (now : Int)
    (urlValid : Bool) (fetchRes : Except FetchErr (Nat × String))
    (parseProfile : String → Except String ProfileParsed) (took_ms : Int) :
    List DbWrite × List String :=
  if !urlValid then
    (insertFailedHealthCheck host.id now (hostErrorNewMessage now "Not a valid URL") none,
     if !muted then ["failed to parse instance URL"] else [])
  else
    match fetchRes with
    | Except.error e =>
        (insertFailedHealthCheck host.id now (toHostError e now) (some took_ms),
         if !muted then ["couldnt ping host, marking as dead"] else [])
    | Except.ok (http_code, content) =>
        let okLog := if !muted then ["fetched host"] else []
        match parseProfile content with
        | Except.error e =>
            (insertFailedHealthCheck host.id now (hostErrorNew now e content http_code)
               (some took_ms),
             okLog ++ (if !muted then ["host doesnt contain a valid profile"] else []))
        | Except.ok profile_content =>
            if cfg.profile_name ≠ profile_content.name
                ∨ profile_content.post_count < cfg.profile_posts_min then
              (insertFailedHealthCheck host.id now
                 (hostErrorNew now "profile content mismatch" content http_code)
                 (some took_ms),
               okLog ++ (if !muted then ["host doesnt contain expected profile content"] else []))
            else
              ([ DbWrite.healthCheck
                   { time := now, host := host.id, resp_time := some took_ms, healthy := true
                     response_code := some (http_code : Int) } ],
               okLog)

/-- C7: a probe whose fetch yields HTTP 403 with a body containing the
captcha text is classified as Captcha, and the worker persists a
HealthCheck row with healthy = false and a CheckError row with message
"Captcha detected" and null http_status and http_body. -/
theorem c7_captcha_classification_and_rows (code : Nat) (codeMsg body : String)
    (cfg : ProfileConfig) (host : HostModel) (muted : Bool) (now took : Int)
    (pp : String → Except String ProfileParsed)
    (hcode : code = 403) (hbody : strContains body captchaText = true) :
    fetchClassify code codeMsg body = Except.error FetchErr.Captcha
    ∧ (healthCheckHost cfg host muted now true (fetchClassify code codeMsg body) pp took).1 =
      [ DbWrite.healthCheck
          { time := now, host := host.id, resp_time := some took, healthy := false
            response_code := none },
        DbWrite.checkError
          { time := now, host := host.id, message := "Captcha detected", http_body := none
            http_status := none } ] := by
  subst hcode
  have h1 : fetchClassify 403 codeMsg body = Except.error FetchErr.Captcha := by
    unfold fetchClassify
    rw [if_neg (by norm_num), if_pos ⟨rfl, hbody⟩]
  refine ⟨h1, ?_⟩
  rw [h1]
  simp [healthCheckHost, insertFailedHealthCheck, toHostError, hostErrorNewMessage]

/-- C7 witness: the theorem applied at HTTP 403 with the captcha text as
the whole body, a concrete host and config. -/
theorem c7_captcha_classification_and_rows_witness :
    fetchClassify 403 "Forbidden" captchaText = Except.error FetchErr.Captcha
    ∧ (healthCheckHost { profile_name := "@jack", profile_posts_min := 5 }
        { id := 1, url := "https://a.example", account_age_average := none } false 1000 true
        (fetchClassify 403 "Forbidden" captchaText) (fun _ => Except.error "no profile") 42).1 =
      [ DbWrite.healthCheck
          { time := 1000, host := 1, resp_time := some 42, healthy := false
            response_code := none },
        DbWrite.checkError
          { time := 1000, host := 1, message := "Captcha detected", http_body := none
            http_status := none } ] :=
  c7_captcha_classification_and_rows 403 "Forbidden" captchaText
    { profile_name := "@jack", profile_posts_min := 5 }
    { id := 1, url := "https://a.example", account_age_average := none } false 1000 42
    (fun _ => Except.error "no profile") rfl (by decide)

/-- C10: the database rows written by health_check_host are identical
whether the host is muted or not; the muted flag only changes the emitted
log lines.  Quantified over every fetch and parse outcome. -/
theorem c10_muted_flag_does_not_change_persisted_rows (cfg : ProfileConfig) (host : HostModel)
    (now : Int) (urlValid : Bool) (fetchRes : Except FetchErr (Nat × String))
    (parseProfile : String → Except String ProfileParsed) (took_ms : Int) (m1 m2 : Bool) :
    (healthCheckHost cfg host m1 now urlValid fetchRes parseProfile took_ms).1 =
    (healthCheckHost cfg host m2 now urlValid fetchRes parseProfile took_ms).1 := by
  unfold healthCheckHost
  cases urlValid
  · rfl
  · rcases fetchRes with e | ⟨http_code, content⟩
    · rfl
    · rcases hp : parseProfile content with e | profile_content
      · simp [hp]
      · simp only [hp]
        by_cases hc : cfg.profile_name ≠ profile_content.name
            ∨ profile_content.post_count < cfg.profile_posts_min
        · simp [hc]
        · simp [hc]

/-! ### C8: stats sweep JSON parsing (src/scanner/src/update_stats.rs) -/

/-- A JSON value. -/
inductive Json where
  | null
  | bool (b : Bool)
  | num (n : Int)
  | str (s : String)
  | arr (items : List Json)
  | obj (fields : List (String × Json))

/-- First binding of a key in a JSON object. -/
def jGet (fields : List (String × Json)) (k : String) : Option Json :=
  match fields with
  | [] => none
  | (k2, v) :: t => if k2 = k then some v else jGet t k

/-- Serde deserialization of a struct requires a JSON object. -/
def asObj (j : Json) : Except Unit (List (String × Json)) :=
  match j with
  | Json.obj f => Except.ok f
  | _ => Except.error ()

/-- Serde deserialization of a required integer field: missing field or
wrong type is an error. -/
def reqIntField (fields : List (String × Json)) (k : String) : Except Unit Int :=
  match jGet fields k with
  | some (Json.num n) => Except.ok n
  | _ => Except.error ()

/-- Serde deserialization of a required chrono DateTimeUtc field: chrono
expects a timestamp string; the actual RFC-3339 parsing is abstracted as
the oracle parseDT returning unix seconds.  A missing field is an
error. -/
def reqDateTimeField (parseDT : String → Except Unit Int)
    (fields : List (String × Json)) (k : String) : Except Unit Int :=
  match jGet fields k with
  | some (Json.str s) => parseDT s
  | _ => Except.error ()

/-- update_stats.rs InstanceStatsAccs: the derived Deserialize REQUIRES
total, limited, oldest, newest and average. -/
structure InstanceStatsAccs where
  total : Int
  limited : Int
  oldest : Int
  newest : Int
  average : Int
deriving DecidableEq

/-- update_stats.rs APIStats: nine required request counters. -/
structure APIStats where
  photoRail : Int
  userScreenName : Int
  search : Int
  listTweets : Int
  userMedia : Int
  tweetDetail : Int
  list : Int
  userTweets : Int
  userTweetsAndReplies : Int
deriving DecidableEq

/-- update_stats.rs RequestStats: total and the required apis struct. -/
structure RequestStats where
  total : Int
  apis : APIStats
deriving DecidableEq

/-- update_stats.rs InstanceStats (the serde target of
fetch_instance_stats). -/
structure InstanceStatsJson where
  accounts : InstanceStatsAccs
  requests : RequestStats
deriving DecidableEq

/-- Derived Deserialize for InstanceStatsAccs: every declared field is
required, unknown fields are ignored (serde default). -/
def parseInstanceStatsAccs (parseDT : String → Except Unit Int) (j : Json) :
    Except Unit InstanceStatsAccs := do
  let f ← asObj j
  let total ← reqIntField f "total"
  let limited ← reqIntField f "limited"
  let oldest ← reqDateTimeField parseDT f "oldest"
  let newest ← reqDateTimeField parseDT f "newest"
  let average ← reqDateTimeField parseDT f "average"
  Except.ok { total := total, limited := limited, oldest := oldest, newest := newest
              average := average }

/-- Derived Deserialize for APIStats. -/
def parseAPIStats (j : Json) : Except Unit APIStats := do
  let f ← asObj j
  let photoRail ← reqIntField f "photoRail"
  let userScreenName ← reqIntField f "userScreenName"
  let search ← reqIntField f "search"
  let listTweets ← reqIntField f "listTweets"
  let userMedia ← reqIntField f "userMedia"
  let tweetDetail ← reqIntField f "tweetDetail"
  let list ← reqIntField f "list"
  let userTweets ← reqIntField f "userTweets"
  let userTweetsAndReplies ← reqIntField f "userTweetsAndReplies"
  Except.ok { photoRail := photoRail, userScreenName := userScreenName, search := search
              listTweets := listTweets, userMedia := userMedia, tweetDetail := tweetDetail
              list := list, userTweets := userTweets
              userTweetsAndReplies := userTweetsAndReplies }

/-- Derived Deserialize for RequestStats: total AND apis are required. -/
def parseRequestStats (j : Json) : Except Unit RequestStats := do
  let f ← asObj j
  let total ← reqIntField f "total"
  let apis ← match jGet f "apis" with
    | some v => parseAPIStats v
    | none => Except.error ()
  Except.ok { total := total, apis := apis }

/-- The serde_json::from_str target of fetch_instance_stats
(update_stats.rs lines 20-54 and 113-115): accounts AND requests are
required. -/
def parseInstanceStatsJson (parseDT : String → Except Unit Int) (j : Json) :
    Except Unit InstanceStatsJson := do
  let f ← asObj j
  let accounts ← match jGet f "accounts" with
    | some v => parseInstanceStatsAccs parseDT v
    | none => Except.error ()
  let requests ← match jGet f "requests" with
    | some v => parseRequestStats v
    | none => Except.error ()
  Except.ok { accounts := accounts, requests := requests }

/-- The instance_stats ActiveModel built by fetch_instance_stats
(update_stats.rs lines 117-132) for the sweep timestamp. -/
def statsModelOf (time hostId : Int) (d : InstanceStatsJson) : InstanceStatsModel :=
  { time := time
    host := hostId
    limited_accs := d.accounts.limited
    total_accs := d.accounts.total
    total_requests := d.requests.total
    req_photo_rail := d.requests.apis.photoRail
    req_user_screen_name := d.requests.apis.userScreenName
    req_search := d.requests.apis.search
    req_list_tweets := d.requests.apis.listTweets
    req_user_media := d.requests.apis.userMedia
    req_tweet_detail := d.requests.apis.tweetDetail
    req_list := d.requests.apis.list
    req_user_tweets := d.requests.apis.userTweets
    req_user_tweets_and_replies := d.requests.apis.userTweetsAndReplies }

/-- The minimal body claimed to be sufficient by the specification:
accounts.total, accounts.limited and requests.total only. -/
def c8MinimalBody : Json :=
  Json.obj
    [ ("accounts", Json.obj [("total", Json.num 5), ("limited", Json.num 2)]),
      ("requests", Json.obj [("total", Json.num 100)]) ]

/-- A body carrying every field the derived Deserialize requires. -/
def c8FullBody : Json :=
  Json.obj
    [ ("accounts", Json.obj
        [ ("total", Json.num 5), ("limited", Json.num 2)
          , ("oldest", Json.str "2020-01-01T00:00:00Z")
          , ("newest", Json.str "2024-01-01T00:00:00Z")
          , ("average", Json.str "2022-01-01T00:00:00Z") ]),
      ("requests", Json.obj
        [ ("total", Json.num 100)
          , ("apis", Json.obj
            [ ("photoRail", Json.num 1), ("userScreenName", Json.num 2)
              , ("search", Json.num 3), ("listTweets", Json.num 4)
              , ("userMedia", Json.num 5), ("tweetDetail", Json.num 6)
              , ("list", Json.num 7), ("userTweets", Json.num 8)
              , ("userTweetsAndReplies", Json.num 9) ]) ]) ]

/-- C8: the claim states that a body containing at least accounts.total,
accounts.limited and requests.total parses with unknown fields ignored.
Counter-evaluation: the derived Deserialize additionally requires
accounts.oldest, accounts.newest, accounts.average and requests.apis
with nine counters, so the minimal claimed shape FAILS to parse; with
all required fields present parsing succeeds and the built row carries
the three claimed values plus the nine legacy counters (columns the
stats-simplified migration has already dropped from the table). -/
theorem c8_minimal_health_shape_fails_to_parse :
    parseInstanceStatsJson (fun _ => Except.ok 0) c8MinimalBody = Except.error ()
    ∧ (parseInstanceStatsJson (fun _ => Except.ok 0) c8FullBody).map (statsModelOf 1000 7) =
      Except.ok
        { time := 1000, host := 7, limited_accs := 2, total_accs := 5, total_requests := 100
          req_photo_rail := 1, req_user_screen_name := 2, req_search := 3, req_list_tweets := 4
          req_user_media := 5, req_tweet_detail := 6, req_list := 7, req_user_tweets := 8
          req_user_tweets_and_replies := 9 } :=
  ⟨rfl, rfl⟩

/-! ### C9: instance-list parsing and the additional-host merge
(src/scanner/src/instance_parser.rs parse_instancelist) -/

/-- instance_parser.rs InstanceParsed. -/
structure InstanceParsed where
  domain : String
  url : String
  online : Bool
  up_to_date : Bool
  ssl_provider : String
deriving DecidableEq

/-- HashMap::insert semantics on the instance map: replaces an existing
binding for the key. -/
def instMapInsert (m : List (String × InstanceParsed)) (k : String) (v : InstanceParsed) :
    List (String × InstanceParsed) :=
  match m with
  | [] => [(k, v)]
  | (k2, v2) :: t => if k2 = k then (k, v) :: t else (k2, v2) :: instMapInsert t k v

/-- Lookup in the instance map. -/
def instMapLookup (m : List (String × InstanceParsed)) (k : String) : Option InstanceParsed :=
  match m with
  | [] => none
  | (k2, v) :: t => if k2 = k then some v else instMapLookup t k

/-- The additional-instances loop of parse_instancelist
(instance_parser.rs lines 110-128): urlDomain models
Url::parse(entry).domain(); each additional entry with a parseable
domain is inserted with HashMap::insert (replacing any existing binding),
marked online and up to date with an empty ssl provider. -/
def mergeAdditionalInstances (urlDomain : String → Option String)
    (instances : List (String × InstanceParsed)) (additional : List String) :
    List (String × InstanceParsed) :=
  additional.foldl
    (fun m entry =>
      match urlDomain entry with
      | some domain =>
          instMapInsert m domain
            { domain := domain, url := entry, online := true, up_to_date := true
              ssl_provider := "" }
      | none => m)
    instances

/-- parse_instancelist (instance_parser.rs lines 74-131) with the HTML
row extraction abstracted: rows is the list of parse_row outcomes in
table order (none models a malformed row that is skipped when
abort_on_err is off), followed by the additional-instances merge. -/
def parseInstancelistModel (urlDomain : String → Option String)
    (rows : List (Option InstanceParsed)) (additional : List String) :
    List (String × InstanceParsed) :=
  mergeAdditionalInstances urlDomain
    (rows.foldl
      (fun m r =>
        match r with
        | some inst => instMapInsert m inst.domain inst
        | none => m)
      [])
    additional

/-- An entry parsed from the wiki table for domain a.example. -/
def c9ParsedEntry : InstanceParsed :=
  { domain := "a.example", url := "https://a.example", online := false, up_to_date := false
    ssl_provider := "LE" }

/-- The entry the additional-instances loop builds for the same URL. -/
def c9AdditionalEntry : InstanceParsed :=
  { domain := "a.example", url := "https://a.example", online := true, up_to_date := true
    ssl_provider := "" }

/-- Concrete model of Url::parse(..).domain() for the counterexample. -/
def c9UrlDomain : String → Option String :=
  fun u => if u = "https://a.example" then some "a.example" else none

/-- C9: the claim states that merging an additional static host never
replaces a parsed entry of the same domain.  Counterexample: with domain
a.example parsed from the wiki table and the same domain configured as an
additional host, the result maps a.example to the additional entry, not
to the parsed one (HashMap::insert replaces unconditionally). -/
theorem c9_additional_host_overrides_parsed_entry :
    instMapLookup
        (parseInstancelistModel c9UrlDomain [some c9ParsedEntry] ["https://a.example"])
        "a.example" = some c9AdditionalEntry
    ∧ c9AdditionalEntry ≠ c9ParsedEntry := by
  decide

/-- Lookup after insert finds the inserted value. -/
theorem instMapLookup_instMapInsert (m : List (String × InstanceParsed)) (k : String)
    (v : InstanceParsed) : instMapLookup (instMapInsert m k v) k = some v := by
  induction m with
  | nil => simp [instMapInsert, instMapLookup]
  | cons h t ih =>
    obtain ⟨k2, v2⟩ := h
    by_cases hk : k2 = k
    · simp [instMapInsert, instMapLookup, hk]
    · simp [instMapInsert, instMapLookup, hk, ih]

/-- C9 amended: additional static hosts are merged after parsing and DO
override a parsed entry of the same domain: whatever was parsed, after
the merge the result maps the domain of the last additional entry that
parses to it to the entry built from that additional URL. -/
theorem c9_additional_host_wins_for_its_domain (urlDomain : String → Option String)
    (rows : List (Option InstanceParsed)) (pre : List String) (entry d : String)
    (hd : urlDomain entry = some d) :
    instMapLookup (parseInstancelistModel urlDomain rows (pre ++ [entry])) d =
      some { domain := d, url := entry, online := true, up_to_date := true
             ssl_provider := "" } := by
  unfold parseInstancelistModel mergeAdditionalInstances
  rw [List.foldl_append]
  simp only [List.foldl_cons, List.foldl_nil, hd]
  exact instMapLookup_instMapInsert _ _ _

/-- C9 amended witness: the amended theorem applied to the concrete
wiki-parsed entry and additional list of the counterexample. -/
theorem c9_additional_host_wins_for_its_domain_witness :
    instMapLookup
        (parseInstancelistModel c9UrlDomain [some c9ParsedEntry] ([] ++ ["https://a.example"]))
        "a.example" =
      some { domain := "a.example", url := "https://a.example", online := true
             up_to_date := true, ssl_provider := "" } :=
  c9_additional_host_wins_for_its_domain c9UrlDomain [some c9ParsedEntry] []
    "https://a.example" "a.example" (by decide)
